import Mathlib

/-!
# Verification of the astro-carta datetime library

Shallow embedding of the calendar utilities (`datetime/month.rs`,
`datetime/utils.rs`), the duration type (`datetime/timedelta.rs`) and the
superseded `days_in_month` of `datetime.rs`, together with theorems settling
the specification claims.

Machine integers (`u8`, `u16`, `i32`, `i128`) are embedded as `Nat`/`Int`;
the Rust `%` and `/` on signed integers truncate toward zero, so they are
embedded as `Int.tmod`/`Int.tdiv`.  The `month as u8` cast keeps the low
8 bits of the two's-complement value, embedded as `(· .emod 256).toNat`.
-/

namespace Month

/-- Embeds `days_in_month` from `src/astro-carta/src/datetime/month.rs`:
a `match` over the month returning 31/28/30 days (early return `None` for an
invalid month), followed by a `+ 1` correction for February of a leap year. -/
def days_in_month (month : Nat) (is_leap_year : Bool) : Option Nat :=
  (match month with
    | 1 | 3 | 5 | 7 | 8 | 10 | 12 => some 31
    | 2 => some 28
    | 4 | 6 | 9 | 11 => some 30
    | _ => none).bind
    (fun d => if month == 2 && is_leap_year then some (d + 1) else some d)

/-- Embeds `cummulative_days_for_month` from
`src/astro-carta/src/datetime/month.rs`: guard on `month` being in `1..=12`,
then index a precomputed 12-entry table (leap or common year). -/
def cummulative_days_for_month (month : Nat) (is_leap_year : Bool) : Option Nat :=
  if month < 1 || month > 12 then none
  else if is_leap_year then
    some ([0, 31, 60, 91, 121, 152, 182, 213, 244, 274, 305, 335].getD (month - 1) 0)
  else
    some ([0, 31, 59, 90, 120, 151, 181, 212, 243, 273, 304, 334].getD (month - 1) 0)

theorem days_in_month_of_gt_12 (m : Nat) (l : Bool) (h : 12 < m) :
    days_in_month m l = none := by
  have hm : (match m with
      | 1 | 3 | 5 | 7 | 8 | 10 | 12 => some 31
      | 2 => some 28
      | 4 | 6 | 9 | 11 => some 30
      | _ => (none : Option Nat)) = none := by
    split
    all_goals first | rfl | omega
  simp [days_in_month, hm]

theorem cummulative_days_of_gt_12 (m : Nat) (l : Bool) (h : 12 < m) :
    cummulative_days_for_month m l = none := by
  unfold cummulative_days_for_month
  have hb : (m < 1 || m > 12) = true := by simp; omega
  rw [if_pos hb]

end Month

namespace Utils

/-- Embeds `is_leap_year` from `src/astro-carta/src/datetime/utils.rs`:
`(((year % 4) == 0) && (year % 100) != 0) || ((year % 400) == 0)` on `i128`,
with Rust's truncating `%` embedded as `Int.tmod`. -/
def is_leap_year (year : Int) : Bool :=
  (year.tmod 4 == 0 && year.tmod 100 != 0) || (year.tmod 400 == 0)

/-- Embeds `is_valid_year` from `utils.rs`: early return `false` when
`year < 1 || year > 100_000_000_000`, otherwise `true`. -/
def is_valid_year (year : Int) : Bool :=
  if year < 1 || year > 100000000000 then false else true

/-- Embeds `is_valid_year_month` from `utils.rs`. -/
def is_valid_year_month (year month : Int) : Bool :=
  if !is_valid_year year then false
  else if month < 1 || month > 12 then false
  else true

/-- Rust's `x as u8` cast on `i128`: keep the low 8 bits. -/
def intToU8 (x : Int) : Nat := (x % 256).toNat

/-- Embeds `is_valid_year_month_day` from `utils.rs`: year/month validity,
`day >= 1`, and `day <= days_in_month(month as u8, is_leap_year(year))`
(failing when `days_in_month` fails). -/
def is_valid_year_month_day (year month day : Int) : Bool :=
  if !is_valid_year_month year month then false
  else if day < 1 then false
  else
    match Month.days_in_month (intToU8 month) (is_leap_year year) with
    | some dim => if day > (dim : Int) then false else true
    | none => false

/-- Embeds `day_of_year` from `utils.rs`: validate the triple, then add the
day to `cummulative_days_for_month(month as u8, is_leap_year(year))`. -/
def day_of_year (year month day : Int) : Option Int :=
  if !is_valid_year_month_day year month day then none
  else
    match Month.cummulative_days_for_month (intToU8 month) (is_leap_year year) with
    | some c => some (day + (c : Int))
    | none => none

theorem is_valid_year_month_iff (y m : Int) :
    is_valid_year_month y m = true ↔
      1 ≤ y ∧ y ≤ 100000000000 ∧ 1 ≤ m ∧ m ≤ 12 := by
  simp [is_valid_year_month, is_valid_year]
  omega

theorem intToU8_of_bounds (m : Int) (h1 : 0 ≤ m) (h2 : m ≤ 12) :
    intToU8 m = m.toNat := by
  unfold intToU8
  rw [Int.emod_eq_of_lt h1 (by omega)]

theorem is_valid_ymd_iff (y m d : Int) :
    is_valid_year_month_day y m d = true ↔
      1 ≤ y ∧ y ≤ 100000000000 ∧ 1 ≤ m ∧ m ≤ 12 ∧ 1 ≤ d ∧
        ∃ dim, Month.days_in_month (intToU8 m) (is_leap_year y) = some dim ∧
          d ≤ (dim : Int) := by
  rcases hdim : Month.days_in_month (intToU8 m) (is_leap_year y) with - | dim
  · simp [is_valid_year_month_day, is_valid_year_month, is_valid_year, hdim]
  · simp [is_valid_year_month_day, is_valid_year_month, is_valid_year, hdim]
    constructor
    · intro h; omega
    · intro h; omega

end Utils

theorem cummulative_isSome :
    ∀ k, k < 13 → 1 ≤ k → ∀ l, (Month.cummulative_days_for_month k l).isSome := by
  decide

/-- C2: for every month `m` and leap flag, `days_in_month` returns 31 for
`m ∈ {1,3,5,7,8,10,12}`, 30 for `m ∈ {4,6,9,11}`, 28 for February of a common
year and 29 for February of a leap year, and no value for every `m` outside
`1..=12`. -/
theorem claim_C2_days_in_month (m : Nat) (l : Bool) :
    ((m = 1 ∨ m = 3 ∨ m = 5 ∨ m = 7 ∨ m = 8 ∨ m = 10 ∨ m = 12) →
      Month.days_in_month m l = some 31) ∧
    ((m = 4 ∨ m = 6 ∨ m = 9 ∨ m = 11) → Month.days_in_month m l = some 30) ∧
    (m = 2 → Month.days_in_month m l = some (if l then 29 else 28)) ∧
    ((m = 0 ∨ 12 < m) → Month.days_in_month m l = none) := by
  refine ⟨?_, ?_, ?_, ?_⟩
  · rintro (rfl | rfl | rfl | rfl | rfl | rfl | rfl) <;> cases l <;> rfl
  · rintro (rfl | rfl | rfl | rfl) <;> cases l <;> rfl
  · rintro rfl; cases l <;> rfl
  · rintro (rfl | h)
    · cases l <;> rfl
    · exact Month.days_in_month_of_gt_12 m l h

theorem claim_C2_witness :
    Month.days_in_month 2 true = some 29 ∧ Month.days_in_month 13 false = none := by
  constructor
  · simpa using (claim_C2_days_in_month 2 true).2.2.1 rfl
  · exact (claim_C2_days_in_month 13 false).2.2.2 (Or.inr (by norm_num))

/-- C3: for every month `m` in `1..=12` and both leap flags,
`cummulative_days_for_month m l` equals the sum of `days_in_month k l` over
`k` in `1..m` (0 for January), and it returns no value for months 0 and 13. -/
theorem claim_C3_cumulative (m : Nat) (l : Bool) :
    (1 ≤ m → m ≤ 12 →
      Month.cummulative_days_for_month m l =
        some (((List.range' 1 (m - 1)).map
          (fun k => (Month.days_in_month k l).getD 0)).sum)) ∧
    ((m = 0 ∨ m = 13) → Month.cummulative_days_for_month m l = none) := by
  constructor
  · intro h1 h2
    interval_cases m <;> cases l <;> rfl
  · rintro (rfl | rfl) <;> cases l <;> rfl

theorem claim_C3_witness :
    Month.cummulative_days_for_month 3 false = some 59 ∧
    Month.cummulative_days_for_month 13 true = none := by
  constructor
  · simpa using (claim_C3_cumulative 3 false).1 (by norm_num) (by norm_num)
  · exact (claim_C3_cumulative 13 true).2 (Or.inr rfl)

/-- C5: for every integer year (including 0 and negative years),
`is_leap_year year` is true iff year is divisible by 4 and not by 100, or
divisible by 400; with the four concrete spec examples. -/
theorem claim_C5_is_leap_year :
    (∀ y : Int, Utils.is_leap_year y = true ↔ ((4 ∣ y ∧ ¬(100 ∣ y)) ∨ 400 ∣ y)) ∧
    Utils.is_leap_year 2000 = true ∧ Utils.is_leap_year 1900 = false ∧
    Utils.is_leap_year 2024 = true ∧ Utils.is_leap_year 2021 = false := by
  refine ⟨?_, by decide, by decide, by decide, by decide⟩
  intro y
  simp only [Utils.is_leap_year, Bool.or_eq_true, Bool.and_eq_true, beq_iff_eq,
    bne_iff_ne, ne_eq, ← Int.dvd_iff_tmod_eq_zero]

theorem claim_C5_witness : Utils.is_leap_year (-400) = true :=
  (claim_C5_is_leap_year.1 (-400)).mpr (Or.inr ⟨-1, by norm_num⟩)

/-- C4: `day_of_year y m d` equals
`some (d + cummulative_days_for_month (m as u8) (is_leap_year y))` exactly when
`is_valid_year_month_day y m d` holds and is `none` otherwise; with the five
concrete spec examples. -/
theorem claim_C4_day_of_year :
    (∀ y m d : Int, Utils.is_valid_year_month_day y m d = true →
      ∃ c, Month.cummulative_days_for_month (Utils.intToU8 m) (Utils.is_leap_year y) =
          some c ∧
        Utils.day_of_year y m d = some (d + (c : Int))) ∧
    (∀ y m d : Int, Utils.is_valid_year_month_day y m d = false →
      Utils.day_of_year y m d = none) ∧
    Utils.day_of_year 2024 3 16 = some 76 ∧
    Utils.day_of_year 2024 2 29 = some 60 ∧
    Utils.day_of_year 2023 12 31 = some 365 ∧
    Utils.day_of_year 2024 12 31 = some 366 ∧
    Utils.day_of_year 2023 2 29 = none := by
  refine ⟨?_, ?_, by decide, by decide, by decide, by decide, by decide⟩
  · intro y m d h
    have hv := (Utils.is_valid_ymd_iff y m d).mp h
    obtain ⟨-, -, hm1, hm2, -, -⟩ := hv
    have hu8 : Utils.intToU8 m = m.toNat := Utils.intToU8_of_bounds m (by omega) hm2
    have hsome := cummulative_isSome m.toNat (by omega) (by omega) (Utils.is_leap_year y)
    rcases hc : Month.cummulative_days_for_month (Utils.intToU8 m) (Utils.is_leap_year y)
      with - | c
    · rw [hu8] at hc
      rw [hc] at hsome
      simp at hsome
    · exact ⟨c, rfl, by simp [Utils.day_of_year, h, hc]⟩
  · intro y m d h
    simp [Utils.day_of_year, h]

theorem claim_C4_witness :
    Utils.day_of_year 2024 1 5 = some 5 ∧ Utils.day_of_year 2024 0 1 = none := by
  constructor
  · obtain ⟨c, hc, hd⟩ := claim_C4_day_of_year.1 2024 1 5 (by decide)
    have hc0 : Month.cummulative_days_for_month (Utils.intToU8 1) (Utils.is_leap_year 2024) =
        some 0 := by decide
    rw [hc0] at hc
    cases hc
    simpa using hd
  · exact claim_C4_day_of_year.2.1 2024 0 1 (by decide)

namespace Timedelta

/-- Nanoseconds per microsecond (`timedelta.rs` constants, `i128`). -/
def NANOSECONDS_PER_MICROSECOND : Int := 1000

def NANOSECONDS_PER_MILLISECOND : Int := 1000 * NANOSECONDS_PER_MICROSECOND

def NANOSECONDS_PER_SECOND : Int := 1000 * NANOSECONDS_PER_MILLISECOND

def NANOSECONDS_PER_MINUTE : Int := 60 * NANOSECONDS_PER_SECOND

def NANOSECONDS_PER_HOUR : Int := 60 * NANOSECONDS_PER_MINUTE

def NANOSECONDS_PER_DAY : Int := 24 * NANOSECONDS_PER_HOUR

/-- Embeds `TimeDelta` from `src/astro-carta/src/datetime/timedelta.rs`:
a single signed 128-bit nanosecond count. -/
structure TimeDelta where
  nanoseconds : Int
  deriving DecidableEq

/-- Embeds `TimeDelta::new`: direct wrap, no validation. -/
def TimeDelta.new (nanoseconds : Int) : TimeDelta := ⟨nanoseconds⟩

/-- Embeds `days_component`: `self.nanoseconds.abs() / NANOSECONDS_PER_DAY`.
`i128::abs` is embedded as `Int.natAbs` (the mathematical absolute value);
its overflow at `i128::MIN` is treated separately via `absI128`. -/
def TimeDelta.days_component (td : TimeDelta) : Int :=
  (td.nanoseconds.natAbs : Int) / NANOSECONDS_PER_DAY

def TimeDelta.hours_component (td : TimeDelta) : Int :=
  ((td.nanoseconds.natAbs : Int) % NANOSECONDS_PER_DAY) / NANOSECONDS_PER_HOUR

def TimeDelta.minutes_component (td : TimeDelta) : Int :=
  ((td.nanoseconds.natAbs : Int) % NANOSECONDS_PER_HOUR) / NANOSECONDS_PER_MINUTE

def TimeDelta.seconds_component (td : TimeDelta) : Int :=
  ((td.nanoseconds.natAbs : Int) % NANOSECONDS_PER_MINUTE) / NANOSECONDS_PER_SECOND

def TimeDelta.nanoseconds_component (td : TimeDelta) : Int :=
  (td.nanoseconds.natAbs : Int) % NANOSECONDS_PER_SECOND

/-- Embeds `impl ops::Add<TimeDelta> for TimeDelta`: pairwise addition of counts. -/
def TimeDelta.add (a b : TimeDelta) : TimeDelta :=
  ⟨a.nanoseconds + b.nanoseconds⟩

/-- Embeds `impl ops::Sub<TimeDelta> for TimeDelta`: pairwise subtraction of counts. -/
def TimeDelta.sub (a b : TimeDelta) : TimeDelta :=
  ⟨a.nanoseconds - b.nanoseconds⟩

end Timedelta

open Timedelta in
/-- C6: for any integer nanosecond count `n`, the components derived from
`TimeDelta::new(n)` recombine to the absolute value of `n`:
`days*NS_PER_DAY + hours*NS_PER_HOUR + minutes*NS_PER_MINUTE +
seconds*NS_PER_SECOND + nanos = |n|`. -/
theorem claim_C6_component_roundtrip (n : Int) :
    (TimeDelta.new n).days_component * NANOSECONDS_PER_DAY +
      (TimeDelta.new n).hours_component * NANOSECONDS_PER_HOUR +
      (TimeDelta.new n).minutes_component * NANOSECONDS_PER_MINUTE +
      (TimeDelta.new n).seconds_component * NANOSECONDS_PER_SECOND +
      (TimeDelta.new n).nanoseconds_component = (n.natAbs : Int) := by
  simp only [TimeDelta.new, TimeDelta.days_component, TimeDelta.hours_component,
    TimeDelta.minutes_component, TimeDelta.seconds_component,
    TimeDelta.nanoseconds_component, NANOSECONDS_PER_DAY, NANOSECONDS_PER_HOUR,
    NANOSECONDS_PER_MINUTE, NANOSECONDS_PER_SECOND, NANOSECONDS_PER_MILLISECOND,
    NANOSECONDS_PER_MICROSECOND]
  omega

open Timedelta in
theorem claim_C6_witness :
    (TimeDelta.new (-5)).days_component * NANOSECONDS_PER_DAY +
      (TimeDelta.new (-5)).hours_component * NANOSECONDS_PER_HOUR +
      (TimeDelta.new (-5)).minutes_component * NANOSECONDS_PER_MINUTE +
      (TimeDelta.new (-5)).seconds_component * NANOSECONDS_PER_SECOND +
      (TimeDelta.new (-5)).nanoseconds_component = 5 :=
  claim_C6_component_roundtrip (-5)

open Timedelta in
/-- C7: `TimeDelta` addition is associative and commutative, and
`a - b = a + TimeDelta::new(-(b.nanoseconds))`. -/
theorem claim_C7_arithmetic (a b c : TimeDelta) :
    (a.add b).add c = a.add (b.add c) ∧
    a.add b = b.add a ∧
    a.sub b = a.add (TimeDelta.new (-b.nanoseconds)) := by
  refine ⟨?_, ?_, ?_⟩ <;>
    simp only [TimeDelta.add, TimeDelta.sub, TimeDelta.new, TimeDelta.mk.injEq] <;>
    ring

open Timedelta in
theorem claim_C7_witness :
    TimeDelta.sub (TimeDelta.new 300) (TimeDelta.new 100) =
      TimeDelta.add (TimeDelta.new 300) (TimeDelta.new (-100)) :=
  (claim_C7_arithmetic (TimeDelta.new 300) (TimeDelta.new 100) (TimeDelta.new 0)).2.2

theorem digitChar_isDigit : ∀ k, k < 10 → (Nat.digitChar k).isDigit := by decide

theorem toDigitsCore_shape :
    ∀ fuel n ds, 1 ≤ fuel →
      ∃ t, t ≠ [] ∧ Nat.toDigitsCore 10 fuel n ds = t ++ ds ∧ ∀ c ∈ t, c.isDigit := by
  intro fuel
  induction fuel with
  | zero => omega
  | succ fuel ih =>
    intro n ds _
    rw [Nat.toDigitsCore]
    by_cases h0 : n / 10 = 0
    · refine ⟨[(n % 10).digitChar], by simp, by simp [h0], ?_⟩
      intro c hc
      simp at hc
      subst hc
      exact digitChar_isDigit _ (Nat.mod_lt _ (by norm_num))
    · simp only [h0, if_false]
      rcases Nat.eq_zero_or_pos fuel with hf | hf
      · subst hf
        refine ⟨[(n % 10).digitChar], by simp, by rw [Nat.toDigitsCore]; rfl, ?_⟩
        intro c hc
        simp at hc
        subst hc
        exact digitChar_isDigit _ (Nat.mod_lt _ (by norm_num))
      · obtain ⟨t, hne, heq, hdig⟩ := ih (n / 10) ((n % 10).digitChar :: ds) hf
        refine ⟨t ++ [(n % 10).digitChar], by simp, ?_, ?_⟩
        · rw [heq, List.append_assoc]
          simp
        · intro c hc
          rcases List.mem_append.mp hc with h | h
          · exact hdig c h
          · simp at h
            subst h
            exact digitChar_isDigit _ (Nat.mod_lt _ (by norm_num))

theorem repr_data_shape (n : Nat) :
    ∃ t, t ≠ [] ∧ (Nat.repr n).data = t ∧ ∀ c ∈ t, c.isDigit := by
  obtain ⟨t, hne, heq, hdig⟩ := toDigitsCore_shape (n + 1) n [] (by omega)
  exact ⟨t, hne, by simp [Nat.repr, Nat.toDigits, List.asString, heq], hdig⟩

theorem sign_lt_zero_iff (n : Int) : n.sign < 0 ↔ n < 0 := by
  rcases Int.lt_trichotomy n 0 with h | h | h
  · simp [Int.sign_eq_neg_one_iff_neg.mpr h]; omega
  · simp [h]
  · simp [Int.sign_eq_one_iff_pos.mpr h]; omega

theorem isDigit_ne_dash (c : Char) (h : c.isDigit) : c ≠ '-' := by
  intro he
  subst he
  simp [Char.isDigit] at h

namespace Timedelta

/-- Rust's `{:0w}` zero-padded formatting of a nonnegative integer:
left-pad the decimal digits with zeros to the minimum width `w`. -/
def padNat (w n : Nat) : String :=
  String.mk (List.replicate (w - (Nat.repr n).length) '0') ++ Nat.repr n

/-- The `" {:02}:{:02}:{:02}.{:09}"` part (without the leading space) of the
`fmt::Display` impl for `TimeDelta`, shared by both of its branches.
The components are nonnegative, so they are rendered via their `toNat`. -/
def hmsRender (td : TimeDelta) : String :=
  padNat 2 td.hours_component.toNat ++ ":" ++ padNat 2 td.minutes_component.toNat ++ ":" ++
    padNat 2 td.seconds_component.toNat ++ "." ++ padNat 9 td.nanoseconds_component.toNat

/-- Embeds `impl fmt::Display for TimeDelta` from `timedelta.rs`: a `-` when
`signum() < 0`, then either `"<days> day[s] "` (plural `s` iff the day
component exceeds 1) followed by the time-of-day part when
`days_component.abs() > 0`, or the time-of-day part alone. -/
def TimeDelta.render (td : TimeDelta) : String :=
  (if td.nanoseconds.sign < 0 then "-" else "") ++
    (if 0 < td.days_component.natAbs then
      Nat.repr td.days_component.toNat ++ " day" ++
        (if 1 < td.days_component then "s" else "") ++ " " ++ hmsRender td
    else hmsRender td)

theorem padNat_shape (w n : Nat) :
    ∃ c cs, (padNat w n).data = c :: cs ∧ c.isDigit := by
  obtain ⟨t, hne, heq, hdig⟩ := repr_data_shape n
  rcases t with - | ⟨c, cs⟩
  · exact absurd rfl hne
  unfold padNat
  rcases hrep : w - (Nat.repr n).length with - | k
  · refine ⟨c, cs, ?_, hdig c (by simp)⟩
    simpa using heq
  · refine ⟨'0', List.replicate k '0' ++ (Nat.repr n).data, ?_, by decide⟩
    simp [List.replicate_succ]

theorem hmsRender_shape (td : TimeDelta) :
    ∃ c cs, (hmsRender td).data = c :: cs ∧ c.isDigit := by
  obtain ⟨c, cs, heq, hdig⟩ := padNat_shape 2 td.hours_component.toNat
  unfold hmsRender
  simp only [String.data_append, List.append_assoc, heq, List.cons_append]
  exact ⟨c, _, rfl, hdig⟩

theorem render_head_iff (td : TimeDelta) :
    (td.render).data.head? = some '-' ↔ td.nanoseconds < 0 := by
  have hbody : ∃ c cs, ((if 0 < td.days_component.natAbs then
      Nat.repr td.days_component.toNat ++ " day" ++
        (if 1 < td.days_component then "s" else "") ++ " " ++ hmsRender td
    else hmsRender td)).data = c :: cs ∧ c.isDigit := by
    split
    · obtain ⟨t, hne, heq, hdig⟩ := repr_data_shape td.days_component.toNat
      rcases t with - | ⟨c, cs⟩
      · exact absurd rfl hne
      simp only [String.data_append, List.append_assoc, heq, List.cons_append]
      exact ⟨c, _, rfl, hdig c (by simp)⟩
    · exact hmsRender_shape td
  obtain ⟨c, cs, heq, hdig⟩ := hbody
  unfold TimeDelta.render
  by_cases hn : td.nanoseconds < 0
  · rw [if_pos ((sign_lt_zero_iff _).mpr hn)]
    simp only [String.data_append, heq]
    simpa using hn
  · rw [if_neg (fun h => hn ((sign_lt_zero_iff _).mp h))]
    simp only [String.data_append, heq]
    have hcd := isDigit_ne_dash c hdig
    simp [hcd, hn]

end Timedelta

open Timedelta in
/-- C8: the textual rendering of a `TimeDelta` starts with `-` iff the raw
nanosecond count is negative; with a nonzero day component it renders
`"<days> day[s] HH:MM:SS.nnnnnnnnn"` (plural `s` iff the day component
exceeds 1, exactly 1 is singular `day`); with a zero day component it renders
`"HH:MM:SS.nnnnnnnnn"` (`hmsRender` zero-pads hours/minutes/seconds to 2
digits and nanoseconds to 9); with the three concrete spec examples. -/
theorem claim_C8_display :
    (∀ td : TimeDelta, (td.render).data.head? = some '-' ↔ td.nanoseconds < 0) ∧
    (∀ td : TimeDelta, 0 < td.days_component.natAbs →
      td.render = (if td.nanoseconds < 0 then "-" else "") ++
        (Nat.repr td.days_component.toNat ++ " day" ++
          (if 1 < td.days_component then "s" else "") ++ " " ++ hmsRender td)) ∧
    (∀ td : TimeDelta, td.days_component.natAbs = 0 →
      td.render = (if td.nanoseconds < 0 then "-" else "") ++ hmsRender td) ∧
    TimeDelta.render (TimeDelta.new (3 * NANOSECONDS_PER_DAY + 6 * NANOSECONDS_PER_HOUR +
      43 * NANOSECONDS_PER_MINUTE + 13 * NANOSECONDS_PER_SECOND + 123456789)) =
      "3 days 06:43:13.123456789" ∧
    TimeDelta.render (TimeDelta.new (-(3 * NANOSECONDS_PER_DAY + 6 * NANOSECONDS_PER_HOUR +
      43 * NANOSECONDS_PER_MINUTE + 13 * NANOSECONDS_PER_SECOND + 123456789))) =
      "-3 days 06:43:13.123456789" ∧
    TimeDelta.render (TimeDelta.new (6 * NANOSECONDS_PER_HOUR + 43 * NANOSECONDS_PER_MINUTE +
      13 * NANOSECONDS_PER_SECOND + 123456789)) = "06:43:13.123456789" := by
  refine ⟨render_head_iff, ?_, ?_, by rfl, by rfl, by rfl⟩
  · intro td h
    unfold TimeDelta.render
    rw [if_pos h]
    simp only [sign_lt_zero_iff]
  · intro td h
    unfold TimeDelta.render
    have hc : ¬ 0 < td.days_component.natAbs := by omega
    rw [if_neg hc]
    simp only [sign_lt_zero_iff]

open Timedelta in
theorem claim_C8_witness :
    TimeDelta.render (TimeDelta.new NANOSECONDS_PER_DAY) = "1 day 00:00:00.000000000" ∧
    (TimeDelta.render (TimeDelta.new (-1))).data.head? = some '-' := by
  constructor
  · have h := claim_C8_display.2.1 (TimeDelta.new NANOSECONDS_PER_DAY) (by decide)
    rw [h]
    rfl
  · exact (claim_C8_display.1 (TimeDelta.new (-1))).mpr (by decide)

namespace Timedelta

/-- The value `i128::MIN`, that is `-(2^127)`. -/
def I128_MIN : Int := -170141183460469231731687303715884105728

/-- Rust's `i128::abs` as actually defined on the 128-bit type: for
`n = i128::MIN` the absolute value overflows the representation (the call is
not defined: it panics with overflow checks and wraps otherwise), for every
other `n` it is the mathematical absolute value. -/
def absI128 (n : Int) : Option Int :=
  if n = I128_MIN then none else some (n.natAbs : Int)

/-- The accessor `days_component` with the overflow of `i128::abs` made explicit. -/
def days_component_checked (n : Int) : Option Int :=
  (absI128 n).map (fun a => a / NANOSECONDS_PER_DAY)

def hours_component_checked (n : Int) : Option Int :=
  (absI128 n).map (fun a => (a % NANOSECONDS_PER_DAY) / NANOSECONDS_PER_HOUR)

def minutes_component_checked (n : Int) : Option Int :=
  (absI128 n).map (fun a => (a % NANOSECONDS_PER_HOUR) / NANOSECONDS_PER_MINUTE)

def seconds_component_checked (n : Int) : Option Int :=
  (absI128 n).map (fun a => (a % NANOSECONDS_PER_MINUTE) / NANOSECONDS_PER_SECOND)

def nanoseconds_component_checked (n : Int) : Option Int :=
  (absI128 n).map (fun a => a % NANOSECONDS_PER_SECOND)

/-- The `fmt::Display` rendering of `TimeDelta::new(n)` in the checked
(panic-aware) semantics: `signum` never panics, but every component accessor
goes through `i128::abs`, so the rendering is defined exactly when those
absolute-value computations are; the string built is the one of
`TimeDelta.render`. -/
def render_checked (n : Int) : Option String :=
  match days_component_checked n, hours_component_checked n,
      minutes_component_checked n, seconds_component_checked n,
      nanoseconds_component_checked n with
  | some d, some h, some mi, some s, some ns =>
    some ((if n.sign < 0 then "-" else "") ++
      (if 0 < d.natAbs then
        Nat.repr d.toNat ++ " day" ++ (if 1 < d then "s" else "") ++ " " ++
          (padNat 2 h.toNat ++ ":" ++ padNat 2 mi.toNat ++ ":" ++
            padNat 2 s.toNat ++ "." ++ padNat 9 ns.toNat)
      else
        padNat 2 h.toNat ++ ":" ++ padNat 2 mi.toNat ++ ":" ++
          padNat 2 s.toNat ++ "." ++ padNat 9 ns.toNat))
  | _, _, _, _, _ => none

end Timedelta

open Timedelta in
/-- C10: `TimeDelta::new` accepts every `i128` including `i128::MIN` without
validation; for every in-range `n ≠ i128::MIN` the five component accessors
and the textual rendering are well-defined (panic-free) and agree with the
mathematical decomposition and with `TimeDelta.render`, while at
`n = i128::MIN` the absolute-value computation overflows and the accessors
and the rendering are undefined. -/
theorem claim_C10_abs_overflow :
    (∀ n : Int, I128_MIN ≤ n → n ≤ 170141183460469231731687303715884105727 →
        n ≠ I128_MIN →
      days_component_checked n = some ((TimeDelta.new n).days_component) ∧
      hours_component_checked n = some ((TimeDelta.new n).hours_component) ∧
      minutes_component_checked n = some ((TimeDelta.new n).minutes_component) ∧
      seconds_component_checked n = some ((TimeDelta.new n).seconds_component) ∧
      nanoseconds_component_checked n = some ((TimeDelta.new n).nanoseconds_component) ∧
      render_checked n = some ((TimeDelta.new n).render)) ∧
    (TimeDelta.new I128_MIN).nanoseconds = I128_MIN ∧
    days_component_checked I128_MIN = none ∧
    hours_component_checked I128_MIN = none ∧
    minutes_component_checked I128_MIN = none ∧
    seconds_component_checked I128_MIN = none ∧
    nanoseconds_component_checked I128_MIN = none ∧
    render_checked I128_MIN = none := by
  have hmin : absI128 I128_MIN = none := by simp [absI128]
  have hd0 : days_component_checked I128_MIN = none := by
    simp [days_component_checked, hmin]
  have hh0 : hours_component_checked I128_MIN = none := by
    simp [hours_component_checked, hmin]
  have hm0 : minutes_component_checked I128_MIN = none := by
    simp [minutes_component_checked, hmin]
  have hs0 : seconds_component_checked I128_MIN = none := by
    simp [seconds_component_checked, hmin]
  have hn0 : nanoseconds_component_checked I128_MIN = none := by
    simp [nanoseconds_component_checked, hmin]
  refine ⟨?_, rfl, hd0, hh0, hm0, hs0, hn0, ?_⟩
  · intro n h1 h2 h3
    have habs : absI128 n = some (n.natAbs : Int) := by simp [absI128, h3]
    have hd : days_component_checked n = some ((TimeDelta.new n).days_component) := by
      simp [days_component_checked, habs, TimeDelta.new, TimeDelta.days_component]
    have hh : hours_component_checked n = some ((TimeDelta.new n).hours_component) := by
      simp [hours_component_checked, habs, TimeDelta.new, TimeDelta.hours_component]
    have hmi : minutes_component_checked n = some ((TimeDelta.new n).minutes_component) := by
      simp [minutes_component_checked, habs, TimeDelta.new, TimeDelta.minutes_component]
    have hs : seconds_component_checked n = some ((TimeDelta.new n).seconds_component) := by
      simp [seconds_component_checked, habs, TimeDelta.new, TimeDelta.seconds_component]
    have hns : nanoseconds_component_checked n =
        some ((TimeDelta.new n).nanoseconds_component) := by
      simp [nanoseconds_component_checked, habs, TimeDelta.new,
        TimeDelta.nanoseconds_component]
    refine ⟨hd, hh, hmi, hs, hns, ?_⟩
    unfold render_checked
    rw [hd, hh, hmi, hs, hns]
    rfl
  · unfold render_checked
    rw [hd0, hh0, hm0, hs0, hn0]

open Timedelta in
theorem claim_C10_witness :
    days_component_checked (-5) = some 0 ∧
    render_checked (-5) = some "-00:00:00.000000005" := by
  have h := claim_C10_abs_overflow.1 (-5) (by decide) (by decide) (by decide)
  constructor
  · rw [h.1]
    decide
  · rw [h.2.2.2.2.2]
    rfl

namespace DT

/-- Embeds the superseded `days_in_month` of `src/astro-carta/src/datetime.rs`
(`pub fn days_in_month(month_id: i32, is_leap_year: bool) -> Result<i32, String>`):
same month table, but failure is an `Err` carrying
`format!("Invalid month_id={:?}", month_id)` instead of an absent value. -/
def days_in_month (month_id : Int) (is_leap_year : Bool) : Except String Int :=
  (match month_id with
   | 1 | 3 | 5 | 7 | 8 | 10 | 12 => Except.ok 31
   | 2 => Except.ok 28
   | 4 | 6 | 9 | 11 => Except.ok 30
   | _ => Except.error ("Invalid month_id=" ++ toString month_id)).bind
   (fun d => if month_id == 2 && is_leap_year then Except.ok (d + 1) else Except.ok d)

theorem days_in_month_invalid (m : Int) (l : Bool) (h : m < 1 ∨ 12 < m) :
    days_in_month m l = Except.error ("Invalid month_id=" ++ toString m) := by
  unfold days_in_month
  split
  all_goals first | rfl | omega

end DT

/-- C9 counterexample: the `days_in_month` of `datetime.rs` signals an invalid
month by returning an error value that carries a message string
(`Err("Invalid month_id=13")`), not by producing no value. -/
theorem claim_C9_counterexample :
    DT.days_in_month 13 false = Except.error "Invalid month_id=13" := by rfl

/-- C9 amended: every fallible operation is total and signals failure through
its returned value, never by an exception or abort: the `Option`-returning
operations (`month.rs` `days_in_month` and `cummulative_days_for_month`,
`utils.rs` `day_of_year`) yield `none` on failure, while the superseded
`days_in_month` of `datetime.rs` yields an `Err` carrying a message string. -/
theorem claim_C9_error_signalling :
    (∀ (m : Nat) (l : Bool), (m = 0 ∨ 12 < m) → Month.days_in_month m l = none) ∧
    (∀ (m : Nat) (l : Bool), (m = 0 ∨ 12 < m) →
      Month.cummulative_days_for_month m l = none) ∧
    (∀ y m d : Int, Utils.is_valid_year_month_day y m d = false →
      Utils.day_of_year y m d = none) ∧
    (∀ (m : Int) (l : Bool), (m < 1 ∨ 12 < m) →
      DT.days_in_month m l = Except.error ("Invalid month_id=" ++ toString m)) := by
  refine ⟨?_, ?_, ?_, ?_⟩
  · rintro m l (rfl | h)
    · cases l <;> rfl
    · exact Month.days_in_month_of_gt_12 m l h
  · rintro m l (rfl | h)
    · cases l <;> rfl
    · exact Month.cummulative_days_of_gt_12 m l h
  · intro y m d h
    simp [Utils.day_of_year, h]
  · exact DT.days_in_month_invalid

theorem claim_C9_witness :
    Month.days_in_month 0 true = none ∧
    DT.days_in_month (-3) false = Except.error "Invalid month_id=-3" := by
  constructor
  · exact claim_C9_error_signalling.1 0 true (Or.inl rfl)
  · simpa using claim_C9_error_signalling.2.2.2 (-3) false (Or.inl (by norm_num))

namespace Gregorian

/-- Truncation toward zero of a rational to an integer (the spec's
`truncate(second * NS_PER_SECOND)`; Rust's `as i128` float cast). -/
def ratTrunc (q : ℚ) : Int := q.num.tdiv (q.den : Int)

/-- Modelled from the spec: the `Instant` type of §4.3. Only the struct
declaration (`DateTime { ticks: i128 }`) is present under `src/`; the spec
says an Instant stores a single Duration since the epoch 0001-01-01T00:00:00,
so the tick count is wrapped as the internal `TimeDelta`. -/
structure Instant where
  ticks : Timedelta.TimeDelta

/-- Modelled from the spec: `Instant::from_gregorian` (§4.3) is not present
under `src/`. Steps 1-5 of the spec: validate the civil fields (any violation
yields no value), compute `day_of_year` (which re-validates), compute the
absolute day count with the proleptic-Gregorian closed form
`day_of_year - 1 + 365*(year-1) + floor((year-1)/4) - floor((year-1)/100) +
floor((year-1)/400)`, convert to nanoseconds truncating the seconds product,
and wrap as the internal Duration. The floating-point `second` argument is
embedded as a rational. -/
def from_gregorian (year month day hour minute : Int) (second : ℚ) :
    Option Instant :=
  if Utils.is_valid_year_month_day year month day = true ∧
      0 ≤ hour ∧ hour ≤ 23 ∧ 0 ≤ minute ∧ minute ≤ 59 ∧ 0 ≤ second ∧ second < 60 then
    match Utils.day_of_year year month day with
    | none => none
    | some doy =>
      let abs_days := doy - 1 + 365 * (year - 1) + (year - 1) / 4 -
        (year - 1) / 100 + (year - 1) / 400
      some ⟨Timedelta.TimeDelta.new (abs_days * Timedelta.NANOSECONDS_PER_DAY +
        hour * Timedelta.NANOSECONDS_PER_HOUR +
        minute * Timedelta.NANOSECONDS_PER_MINUTE +
        ratTrunc (second * ((Timedelta.NANOSECONDS_PER_SECOND : Int) : ℚ)))⟩
  else none

end Gregorian

/-- C1: `from_gregorian` (modelled from the spec, §4.3) yields no value
whenever field validation fails — in particular for month 13, day 30 of
February, hour 24, minute 60 and second 60.0 — and yields an Instant for the
valid leap day 2024-02-29T12:00:00; on any validation failure the result is
`none`, so no partial instant is ever produced. -/
theorem claim_C1_from_gregorian :
    (∀ (y m d h mi : Int) (s : ℚ),
      ¬(Utils.is_valid_year_month_day y m d = true ∧ 0 ≤ h ∧ h ≤ 23 ∧
          0 ≤ mi ∧ mi ≤ 59 ∧ 0 ≤ s ∧ s < 60) →
      Gregorian.from_gregorian y m d h mi s = none) ∧
    Gregorian.from_gregorian 2024 13 1 0 0 0 = none ∧
    Gregorian.from_gregorian 2024 2 30 0 0 0 = none ∧
    Gregorian.from_gregorian 2024 1 1 24 0 0 = none ∧
    Gregorian.from_gregorian 2024 1 1 0 60 0 = none ∧
    Gregorian.from_gregorian 2024 1 1 0 0 60 = none ∧
    (Gregorian.from_gregorian 2024 2 29 12 0 0).isSome = true := by
  refine ⟨?_, ?_, ?_, ?_, ?_, ?_, ?_⟩
  · intro y m d h mi s hv
    simp only [Gregorian.from_gregorian, if_neg hv]
  all_goals rfl

theorem claim_C1_witness :
    Gregorian.from_gregorian 2023 2 29 12 0 0 = none := by
  apply claim_C1_from_gregorian.1
  intro hc
  have := hc.1
  revert this
  decide
